import Mathlib

/-!
Shallow embedding of the core of Plex-Auto-Languages
(track_changes.py, plex_server_cache.py, plex_server.py,
plex_alert_handler.py) and proofs about the claims of its
natural-language specification.

Conventions of the embedding:
* `Option` models Python `None`-able attributes; `Option Bool` models an
  attribute that may be absent (`hasattr` is `isSome`, truthiness is
  `getD false`).
* External service calls (`plex.episodes()`, `fetch_item`, ...) become
  explicit arguments (oracles) of the embedded functions.
* Code that can raise an exception is embedded in `Except String`.
-/

/-- Lower-case one character (ASCII range), modelling Python `str.lower()`
on the ASCII titles the code compares. -/
def charLower (c : Char) : Char :=
  if 65 ≤ c.toNat && c.toNat ≤ 90 then Char.ofNat (c.toNat + 32) else c

/-- Lower-case a string character by character. -/
def strLower (s : String) : String := ⟨s.data.map charLower⟩

/-- Substring test mirroring Python's `needle in haystack`. -/
def strContainsSub (needle haystack : String) : Bool :=
  haystack.data.tails.any (fun t => needle.data.isPrefixOf t)

/-- Python's `a or b` on optional strings: `None` and `""` are falsy. -/
def pyOrStr (a b : Option String) : Option String :=
  match a with
  | some s => if s = "" then b else some s
  | none => b

/-- Audio stream metadata, as exposed by plexapi and read by the code. -/
structure AudioStream where
  id : Nat
  languageCode : Option String
  codec : Option String
  audioChannelLayout : Option String
  channels : Nat
  title : Option String
  displayTitle : Option String
  extendedDisplayTitle : Option String
  visualImpaired : Option Bool
  selected : Bool
deriving DecidableEq

/-- Subtitle stream metadata, as exposed by plexapi and read by the code. -/
structure SubtitleStream where
  id : Nat
  languageCode : Option String
  codec : Option String
  title : Option String
  forced : Bool
  hearingImpaired : Bool
  selected : Bool
deriving DecidableEq

/-- Media part: a file with its audio and subtitle streams. -/
structure MediaPart where
  id : Nat
  audioStreams : List AudioStream
  subtitleStreams : List SubtitleStream
deriving DecidableEq

/-- Episode: a key plus its media parts. -/
structure Episode where
  key : String
  parts : List MediaPart
deriving DecidableEq

/-- Audio streams of an episode across all of its parts
(plexapi `Episode.audioStreams()`). -/
def episodeAudioStreams (e : Episode) : List AudioStream :=
  e.parts.flatMap MediaPart.audioStreams

/-- Subtitle streams of an episode across all of its parts
(plexapi `Episode.subtitleStreams()`). -/
def episodeSubtitleStreams (e : Episode) : List SubtitleStream :=
  e.parts.flatMap MediaPart.subtitleStreams

/-- Selection recorded in a change tuple: a new audio stream, a new
subtitle stream, or a subtitle clear (`None`). -/
inductive TrackSel where
  | audio (s : AudioStream)
  | subtitle (s : Option SubtitleStream)
deriving DecidableEq

/-- One entry of `TrackChanges._changes`: `(episode, part, stream_type,
new_stream)` keyed here by episode key and part id. -/
structure TrackChange where
  episodeKey : String
  partId : Nat
  sel : TrackSel
deriving DecidableEq

namespace TrackChanges

/-- Helper `get_stream_title` of `_match_audio_stream`:
`(extendedDisplayTitle or displayTitle or title or "").lower()`. -/
def get_stream_title (s : AudioStream) : String :=
  strLower ((pyOrStr (pyOrStr s.extendedDisplayTitle s.displayTitle) s.title).getD "")

/-- Terms indicating a descriptive track (`contains_descriptive_terms`). -/
def descriptiveTerms : List String :=
  ["commentary", "description", "descriptive", "narration", "narrative", "described"]

/-- Check if the title contains terms indicating a descriptive track. -/
def contains_descriptive_terms (title : String) : Bool :=
  descriptiveTerms.any (fun t => strContainsSub t title)

/-- Score of one candidate stream in `_match_audio_stream` (codec +5,
channel-layout +3, ambiguity bonus, exact raw-title +5), in source order. -/
def audioScore (ref : AudioStream) (ambiguous : Bool) (s : AudioStream) : Nat :=
  let sc := if ref.codec == s.codec then 5 else 0
  let sc := sc + (if ref.audioChannelLayout == s.audioChannelLayout then 3 else 0)
  let sc := sc +
    (if ambiguous then
      (if ref.channels < 3 then
        (if ref.channels < s.channels then 8 else 0)
      else
        (if ref.channels ≤ s.channels then 1 else 0))
    else 0)
  sc + (match ref.title, s.title with
        | some rt, some st => if rt = st then 5 else 0
        | _, _ => 0)

/-- Index of the first occurrence of the maximum, mirroring Python's
`scores.index(max(scores))`. -/
def idxOfMax (l : List Nat) : Nat :=
  l.indexOf (l.foldl Nat.max 0)

/-- Tail shared by both matchers: no candidate gives `None`, a single
candidate is returned without scoring, otherwise the first
highest-scoring candidate is returned
(`streams[scores.index(max(scores))]`). -/
def pickBest {α : Type} (score : α → Nat) : List α → Option α
  | [] => none
  | [s] => some s
  | s :: t :: rest =>
    let all := s :: t :: rest
    let scores := all.map score
    some (all.getD (idxOfMax scores) s)

/-- Embedding of `TrackChanges._match_audio_stream`: restrict candidates to
the reference language code, apply the visual-impaired filter then the
descriptive-terms filter (each skipped when it would empty the list), and
return the single survivor or the first highest-scoring survivor. -/
def match_audio_stream (refA : Option AudioStream) (audio_streams : List AudioStream) :
    Option AudioStream :=
  match refA with
  | none => none
  | some ref =>
    let streams := audio_streams.filter (fun s => s.languageCode == ref.languageCode)
    let ambiguous :=
      match audio_streams with
      | [] => true
      | h :: _ => audio_streams.all (fun s => s.title == h.title)
    let streams :=
      if ref.visualImpaired.getD false then
        let vi := streams.filter (fun s => s.visualImpaired.getD false)
        if vi.isEmpty then streams else vi
      else
        let nvi := streams.filter (fun s => !(s.visualImpaired.getD false))
        if nvi.isEmpty then streams else nvi
    let ref_title := get_stream_title ref
    let streams :=
      if contains_descriptive_terms ref_title then
        let d := streams.filter (fun s => contains_descriptive_terms (get_stream_title s))
        if d.isEmpty then streams else d
      else
        let nd := streams.filter (fun s => !(contains_descriptive_terms (get_stream_title s)))
        if nd.isEmpty then streams else nd
    pickBest (audioScore ref ambiguous) streams

/-- Score of one candidate in `_match_subtitle_stream` (forced +3,
hearing-impaired +3, codec +1, exact raw-title +5); all zero when the
reference subtitle is `None`. -/
def subtitleScore (refS : Option SubtitleStream) (s : SubtitleStream) : Nat :=
  match refS with
  | none => 0
  | some r =>
    let sc := if r.forced == s.forced then 3 else 0
    let sc := sc + (if r.hearingImpaired == s.hearingImpaired then 3 else 0)
    let sc := sc + (match r.codec, s.codec with
                    | some rc, some sc0 => if rc = sc0 then 1 else 0
                    | _, _ => 0)
    sc + (match r.title, s.title with
          | some rt, some st => if rt = st then 5 else 0
          | _, _ => 0)

/-- Filtering and scoring core of `_match_subtitle_stream`, once the
match-forced flag, match-hearing-impaired flag and language code have been
resolved from the reference selection. -/
def match_subtitle_filtered (mf mh : Bool) (lc : Option String)
    (subtitle_streams : List SubtitleStream) (refS : Option SubtitleStream) :
    Option SubtitleStream :=
  let streams := subtitle_streams.filter (fun s => s.languageCode == lc)
  let streams := if mf then streams.filter (fun s => s.forced) else streams
  let streams := if mh then streams.filter (fun s => s.hearingImpaired) else streams
  pickBest (subtitleScore refS) streams

/-- Embedding of `TrackChanges._match_subtitle_stream`: when the reference
has no subtitle selected, search for a forced-only subtitle in the
reference audio's language; otherwise match the reference subtitle's
language, forced flag and hearing-impaired flag. -/
def match_subtitle_stream (refA : Option AudioStream) (refS : Option SubtitleStream)
    (subtitle_streams : List SubtitleStream) : Option SubtitleStream :=
  match refS with
  | none =>
    match refA with
    | none => none
    | some a => match_subtitle_filtered true false a.languageCode subtitle_streams none
  | some r =>
    match_subtitle_filtered r.forced r.hearingImpaired r.languageCode subtitle_streams (some r)

/-- Audio-change entry computed by `TrackChanges.compute` for one part:
recorded when both a current and a matching audio stream exist and their
ids differ. -/
def audio_change_of_part (refA : Option AudioStream) (ep : Episode) (part : MediaPart) :
    List TrackChange :=
  match part.audioStreams.find? (fun s => s.selected),
        match_audio_stream refA part.audioStreams with
  | some ca, some ma =>
    if ma.id ≠ ca.id then [⟨ep.key, part.id, TrackSel.audio ma⟩] else []
  | _, _ => []

/-- Subtitle-change entries computed by `TrackChanges.compute` for one
part: a clear entry when a subtitle is selected but none matches, a select
entry when a matching subtitle differs from the current one — unless the
commentary-suppression check applies.  That check dereferences
`current_audio_stream.title`, which raises when no audio stream is
currently selected; the error case embeds that exception. -/
def subtitle_changes_of_part (refA : Option AudioStream) (refS : Option SubtitleStream)
    (ep : Episode) (part : MediaPart) : Except String (List TrackChange) :=
  let currentA := part.audioStreams.find? (fun s => s.selected)
  let currentS := part.subtitleStreams.find? (fun s => s.selected)
  let matchA := match_audio_stream refA part.audioStreams
  let matchS := match_subtitle_stream refA refS part.subtitleStreams
  let clearChanges : List TrackChange :=
    if currentS.isSome && matchS.isNone then [⟨ep.key, part.id, TrackSel.subtitle none⟩]
    else []
  match matchS with
  | none => .ok clearChanges
  | some ms =>
    if currentS.all (fun cs => ms.id != cs.id) then
      match currentA with
      | none => .error "AttributeError"
      | some ca =>
        if (match ca.title with
            | some t => strContainsSub "commentary" (strLower t)
            | none => false) && matchA.isNone then
          .ok clearChanges
        else
          .ok (clearChanges ++ [⟨ep.key, part.id, TrackSel.subtitle (some ms)⟩])
    else .ok clearChanges

/-- Changes `TrackChanges.compute` records for one part, in source order:
the audio change first, then the subtitle changes. -/
def computePart (refA : Option AudioStream) (refS : Option SubtitleStream)
    (ep : Episode) (part : MediaPart) : Except String (List TrackChange) :=
  match subtitle_changes_of_part refA refS ep part with
  | .error e => .error e
  | .ok sc => .ok (audio_change_of_part refA ep part ++ sc)

/-- Changes recorded for the parts of one episode. -/
def computeParts (refA : Option AudioStream) (refS : Option SubtitleStream)
    (ep : Episode) : List MediaPart → Except String (List TrackChange)
  | [] => .ok []
  | p :: rest =>
    match computePart refA refS ep p with
    | .error e => .error e
    | .ok c =>
      match computeParts refA refS ep rest with
      | .error e => .error e
      | .ok cs => .ok (c ++ cs)

/-- Embedding of `TrackChanges.compute`: the change list over all episodes
and their parts, or the first exception raised. -/
def compute (refA : Option AudioStream) (refS : Option SubtitleStream) :
    List Episode → Except String (List TrackChange)
  | [] => .ok []
  | ep :: rest =>
    match computeParts refA refS ep ep.parts with
    | .error e => .error e
    | .ok c =>
      match compute refA refS rest with
      | .error e => .error e
      | .ok cs => .ok (c ++ cs)

/-- Embedding of `TrackChanges._get_selected_streams` on an episode: the
first selected audio and subtitle streams, if any. -/
def get_selected_streams (e : Episode) :
    Option AudioStream × Option SubtitleStream :=
  ((episodeAudioStreams e).find? (fun s => s.selected),
   (episodeSubtitleStreams e).find? (fun s => s.selected))

/-- The `TrackChanges.__init__` + `compute` pipeline: take the reference
episode's selected streams and compute the changes for the target
episodes. -/
def computeForReference (reference : Episode) (episodes : List Episode) :
    Except String (List TrackChange) :=
  compute (get_selected_streams reference).1 (get_selected_streams reference).2 episodes

end TrackChanges

/-- One episode of a fresh library scan: its key and the keys of its
parts (`plex.episodes()` together with `episode.iterParts()`). -/
structure ScanEpisode where
  key : String
  parts : List String
deriving DecidableEq

/-- Python `set(a) != set(b)` negated: the two part-key lists hold the
same elements. -/
def sameSet (a b : List String) : Bool :=
  a.all (fun x => b.contains x) && b.all (fun x => a.contains x)

/-- State of `PlexServerCache` relevant to the claims: the
refresh-in-progress flag, the `newly_added` timestamp map, the
`episode_parts` snapshot, the last-refresh timestamp, and a counter of
`save()` calls (to observe whether a refresh persisted anything). -/
structure PlexServerCache where
  is_refreshing : Bool
  newly_added : String → Option Nat
  episode_parts : String → Option (List String)
  last_refresh : Nat
  saves : Nat

/-- Embedding of `PlexServerCache.should_process_recently_added`: `False`
when the episode is recorded with the same timestamp, otherwise record the
timestamp and return `True`. -/
def should_process_recently_added (c : PlexServerCache) (episode_id : String)
    (added_at : Nat) : Bool × PlexServerCache :=
  if c.newly_added episode_id = some added_at then
    (false, c)
  else
    (true, { c with newly_added :=
      fun k => if k = episode_id then some added_at else c.newly_added k })

/-- Scan loop of `refresh_library_cache`: builds the new
`episode_parts` map with `setdefault`-style accumulation and classifies
each scanned episode against the old snapshot (present with a different
part set ⇒ updated, absent ⇒ added). -/
def refreshScan (old : String → Option (List String))
    (m : String → Option (List String)) :
    List ScanEpisode →
    (String → Option (List String)) × List ScanEpisode × List ScanEpisode
  | [] => (m, [], [])
  | ep :: rest =>
    let part_list := (m ep.key).getD [] ++ ep.parts
    let m2 := fun k => if k = ep.key then some part_list else m k
    let r := refreshScan old m2 rest
    match old ep.key with
    | some oldParts =>
      if sameSet oldParts part_list then (r.1, r.2.1, r.2.2)
      else (r.1, r.2.1, ep :: r.2.2)
    | none => (r.1, ep :: r.2.1, r.2.2)

/-- Embedding of `PlexServerCache.refresh_library_cache`.  The library
enumeration is an oracle that either yields the scanned episodes or raises
(`Except.error`); an exception escapes after the in-progress flag was set
but before the snapshot, timestamp or save happened.  On success the
snapshot is replaced, the refresh timestamp advanced to `now`, the state
saved, and the flag cleared. -/
def refresh_library_cache (s : PlexServerCache)
    (scan : Except String (List ScanEpisode)) (now : Nat) :
    Except String (List ScanEpisode × List ScanEpisode) × PlexServerCache :=
  if s.is_refreshing then
    (.ok ([], []), s)
  else
    match scan with
    | .error e => (.error e, { s with is_refreshing := true })
    | .ok eps =>
      let r := refreshScan s.episode_parts (fun _ => none) eps
      (.ok (r.2.1, r.2.2),
       { s with is_refreshing := false, episode_parts := r.1,
                last_refresh := now, saves := s.saves + 1 })

/-- Per-user answers of the external service during
`process_new_or_updated_episode`: whether `get_plex_instance_of_user`
succeeds, the result of `fetch_item`, the result of
`get_last_watched_or_first_episode`, and the result of
`get_user_by_id` (the user's name). -/
structure UserFetch where
  plexInstance : Bool
  item : Option Episode
  reference : Option Episode
  userName : Option String

/-- Result of `process_new_or_updated_episode`: the per-user computed
change lists, whether the user loop ran to completion (`False` when the
mid-loop `return` on a failed user lookup fired), and whether a
notification was emitted. -/
structure ProcResult where
  perUser : List (String × List TrackChange)
  completedLoop : Bool
  notified : Bool
deriving DecidableEq

/-- User loop of `process_new_or_updated_episode`: a missing plex
instance, item or reference episode skips the user (`continue`); a
missing user lookup aborts the whole function (`return`); otherwise the
user's changes are computed from their reference episode and
accumulated. -/
def processLoop : List UserFetch → List (String × List TrackChange) →
    Except String (List (String × List TrackChange) × Bool)
  | [], acc => .ok (acc, true)
  | u :: rest, acc =>
    if !u.plexInstance then processLoop rest acc
    else
      match u.item with
      | none => processLoop rest acc
      | some item =>
        match u.reference with
        | none => processLoop rest acc
        | some ref =>
          match u.userName with
          | none => .ok (acc, false)
          | some name =>
            match TrackChanges.computeForReference ref [item] with
            | .error e => .error e
            | .ok cs => processLoop rest (acc ++ [(name, cs)])

/-- Embedding of `PlexServer.process_new_or_updated_episode`: run the user
loop, then notify once exactly when the loop completed and some user's
change list is non-empty (`NewOrUpdatedTrackChanges.has_changes`). -/
def process_new_or_updated_episode (users : List UserFetch) :
    Except String ProcResult :=
  match processLoop users [] with
  | .error e => .error e
  | .ok (acc, completed) =>
    .ok { perUser := acc, completedLoop := completed,
          notified := completed && acc.any (fun p => !p.2.isEmpty) }

/-- Outcome of one invocation of `alert.process` in the alert loop:
success, a read-timeout fault, a connection-reset/protocol fault, or any
other exception.  Python's bare `except Exception` catches everything
else, so these four outcomes are exhaustive. -/
inductive AlertOutcome where
  | ok
  | readTimeout
  | connectionFault
  | otherError
deriving DecidableEq

/-- State of the `_process_alerts` loop: the retry counter, the alert
held in the local `alert` variable, the pending queue, the log of handler
invocations, and the number of loop iterations executed. -/
structure LoopState where
  retryCounter : Nat
  currentAlert : Option Nat
  queue : List Nat
  handled : List (Nat × AlertOutcome)
  iterations : Nat
deriving DecidableEq

/-- Effect of invoking the handler on alert `a`: the invocation is logged
and the retry counter is incremented on a read timeout and reset to zero
on success, connection fault, or any other exception. -/
def handleAlert (s : LoopState) (a : Nat) (o : AlertOutcome) : LoopState :=
  { s with handled := s.handled ++ [(a, o)],
           retryCounter := match o with
                           | .readTimeout => s.retryCounter + 1
                           | _ => 0 }

/-- One iteration of the `_process_alerts` while-loop: dequeue a new alert
only when the retry counter is zero (an empty queue is the `Empty`
exception, a no-op), then invoke the handler on the held alert. -/
def processStep (s : LoopState) (o : AlertOutcome) : LoopState :=
  let s1 := { s with iterations := s.iterations + 1 }
  if s1.retryCounter = 0 then
    match s1.queue with
    | [] => s1
    | a :: rest => handleAlert { s1 with currentAlert := some a, queue := rest } a o
  else
    match s1.currentAlert with
    | some a => handleAlert s1 a o
    | none => s1

/-- The alert the next iteration will hand to the handler: the queue head
when the retry counter is zero, else the alert already held. -/
def processingTarget (s : LoopState) : Option Nat :=
  if s.retryCounter = 0 then s.queue.head? else s.currentAlert

/-- Run `n` iterations of the alert loop (the stop flag is observed after
the `n`-th iteration); handler outcomes are an oracle indexed by
iteration number. -/
def runLoop (outs : Nat → AlertOutcome) : Nat → LoopState → LoopState
  | 0, s => s
  | n + 1, s => runLoop outs n (processStep s (outs s.iterations))

/-- Reference audio selection of the C1 scenario: English audio. -/
def refAudioC1 : AudioStream :=
  ⟨1, some "en", none, none, 2, none, none, none, none, true⟩

/-- Reference subtitle selection of the C1 scenario: English subtitles. -/
def refSubC1 : SubtitleStream :=
  ⟨2, some "en", none, none, false, false, true⟩

/-- Target part of the C1 scenario: only French streams, with a French
subtitle currently selected. -/
def partC1 : MediaPart :=
  ⟨1, [⟨10, some "fr", none, none, 2, none, none, none, none, true⟩],
      [⟨11, some "fr", none, none, false, false, true⟩]⟩

/-- Target episode of the C1 scenario. -/
def epC1 : Episode := ⟨"e1", [partC1]⟩

/-- Reference audio selection of the C2 scenario: English audio, no
subtitle selected. -/
def refAudioC2 : AudioStream :=
  ⟨1, some "en", none, none, 2, none, none, none, none, true⟩

/-- Target part of the C2 scenario: its only subtitle candidate is
English but not forced, and it is currently selected. -/
def partC2 : MediaPart :=
  ⟨2, [], [⟨21, some "en", none, none, false, false, true⟩]⟩

/-- Target episode of the C2 scenario. -/
def epC2 : Episode := ⟨"e2", [partC2]⟩

/-- Forced English subtitle used by the C2 witness. -/
def subForcedC2 : SubtitleStream := ⟨31, some "en", none, none, true, false, false⟩

/-- Candidate list of the C2 witness: only the forced English subtitle. -/
def subsForcedC2 : List SubtitleStream := [subForcedC2]

/-- Reference audio of the C3 scenario: aac, stereo, 2 channels,
titled "English". -/
def refAudioC3 : AudioStream :=
  ⟨1, some "en", some "aac", some "stereo", 2, some "English", none, none, none, true⟩

/-- Candidate A of the C3 scenario: aac, stereo, 2 channels, "English". -/
def candA3 : AudioStream :=
  ⟨2, some "en", some "aac", some "stereo", 2, some "English", none, none, none, false⟩

/-- Candidate B of the C3 scenario: ac3, 5.1, 6 channels, "English". -/
def candB3 : AudioStream :=
  ⟨3, some "en", some "ac3", some "5.1", 6, some "English", none, none, none, false⟩

/-- Reference episode of the C9 scenario: selected English audio and
selected English subtitle. -/
def refC9 : Episode :=
  ⟨"ref9", [⟨1, [⟨1, some "en", none, none, 2, none, none, none, none, true⟩],
                [⟨2, some "en", none, none, false, false, true⟩]⟩]⟩

/-- Target episode of the C9 scenario: its part has no audio stream at
all (so no current audio selection) and one unselected English subtitle
that the engine will match. -/
def epC9 : Episode :=
  ⟨"e9", [⟨3, [], [⟨3, some "en", none, none, false, false, false⟩]⟩]⟩

/-- Reference episode of the C6 scenario: selected English audio. -/
def refC6 : Episode :=
  ⟨"ref6", [⟨1, [⟨1, some "en", none, none, 2, none, none, none, none, true⟩], []⟩]⟩

/-- The English audio stream of the C6 target item that the engine
selects. -/
def audEnC6 : AudioStream :=
  ⟨11, some "en", none, none, 2, none, none, none, none, false⟩

/-- Target item of the C6 scenario: French audio currently selected, an
English candidate available, so the engine computes one audio change. -/
def itemC6 : Episode :=
  ⟨"it6", [⟨2, [⟨10, some "fr", none, none, 2, none, none, none, none, true⟩, audEnC6], []⟩]⟩

/-- User 1 of the C6 scenario: every lookup succeeds. -/
def userC6a : UserFetch := ⟨true, some itemC6, some refC6, some "alice"⟩

/-- User 2 of the C6 scenario: `get_user_by_id` returns `None`. -/
def userC6b : UserFetch := ⟨true, some itemC6, some refC6, none⟩

/-- User 3 of the C6 scenario: every lookup succeeds, but the mid-loop
`return` triggered by user 2 prevents this user from being processed. -/
def userC6c : UserFetch := ⟨true, some itemC6, some refC6, some "carol"⟩

/-- Initial cache of the C4 witness scenario: nothing recorded yet. -/
def cacheC4 : PlexServerCache := ⟨false, fun _ => none, fun _ => none, 0, 0⟩

/-- Cache of the C8 witness scenario: a refresh is already in progress. -/
def cacheC8 : PlexServerCache := ⟨true, fun _ => none, fun _ => none, 3, 4⟩

/-- Cache of the C10 witness scenario: idle, with a non-empty snapshot. -/
def cacheC10 : PlexServerCache :=
  ⟨false, fun _ => none, fun k => if k = "E1" then some ["p1"] else none, 2, 1⟩

/-- Cache of the C5 witness scenario: snapshot containing only E1 with
part p1. -/
def cacheC5 : PlexServerCache :=
  ⟨false, fun _ => none, fun k => if k = "E1" then some ["p1"] else none, 0, 0⟩

/-- Scan of the C5 witness scenario: E1 unchanged, E2 new. -/
def scanC5 : List ScanEpisode := [⟨"E1", ["p1"]⟩, ⟨"E2", ["p2"]⟩]

/-- Initial loop state of the C7 witness scenario: two queued alerts. -/
def loopC7 : LoopState := ⟨0, none, [7, 9], [], 0⟩


/-- C4: the first call of `should_process_recently_added(e, t)` returns
`True` and records `(e, t)`; every subsequent call with the same `e` and
`t` returns `False` and leaves the cache unchanged; a later call with the
same `e` and a different timestamp returns `True` again and records the
new timestamp. -/
theorem C4_dedup_idempotence (c : PlexServerCache) (e : String) (t t2 : Nat)
    (h0 : c.newly_added e = none) (hne : t2 ≠ t) :
    (should_process_recently_added c e t).1 = true ∧
    ((should_process_recently_added c e t).2).newly_added e = some t ∧
    should_process_recently_added (should_process_recently_added c e t).2 e t =
      (false, (should_process_recently_added c e t).2) ∧
    (should_process_recently_added (should_process_recently_added c e t).2 e t2).1 = true ∧
    ((should_process_recently_added (should_process_recently_added c e t).2 e t2).2).newly_added e
      = some t2 := by
  have h1 : should_process_recently_added c e t =
      (true, { c with newly_added := fun k => if k = e then some t else c.newly_added k }) := by
    simp [should_process_recently_added, h0]
  refine ⟨by simp [h1], by simp [h1], ?_, ?_, ?_⟩
  · rw [h1]
    simp [should_process_recently_added]
  · rw [h1]
    simp [should_process_recently_added, Ne.symm hne]
  · rw [h1]
    simp [should_process_recently_added, Ne.symm hne]

/-- C4 witness: concrete run of the dedup predicate on a fresh cache. -/
theorem C4_dedup_witness :
    (should_process_recently_added cacheC4 "ep" 1).1 = true ∧
    (should_process_recently_added (should_process_recently_added cacheC4 "ep" 1).2 "ep" 1).1
      = false ∧
    (should_process_recently_added (should_process_recently_added cacheC4 "ep" 1).2 "ep" 2).1
      = true := by
  have h := C4_dedup_idempotence cacheC4 "ep" 1 2 rfl (by decide)
  exact ⟨h.1, by rw [h.2.2.1], h.2.2.2.1⟩

/-- C8: when the refresh-in-progress flag is set, `refresh_library_cache`
returns `([], [])` and the state — snapshot, timestamps, save counter and
all — is returned unchanged: no scan is consumed and no save happens. -/
theorem C8_refresh_guard (s : PlexServerCache)
    (scan : Except String (List ScanEpisode)) (now : Nat)
    (h : s.is_refreshing = true) :
    refresh_library_cache s scan now = (.ok ([], []), s) := by
  simp [refresh_library_cache, h]

/-- C8 witness: the guard on a concrete in-progress cache. -/
theorem C8_refresh_guard_witness :
    cacheC8.is_refreshing = true ∧
    refresh_library_cache cacheC8 (.ok [⟨"E9", ["p9"]⟩]) 9 = (.ok ([], []), cacheC8) :=
  ⟨rfl, C8_refresh_guard cacheC8 (.ok [⟨"E9", ["p9"]⟩]) 9 rfl⟩

/-- C10: when the scan raises, the exception propagates with the
in-progress flag left set and every other field unchanged, and from then
on every call to `refresh_library_cache` returns `([], [])` without
scanning or changing anything. -/
theorem C10_refresh_not_exception_atomic (s : PlexServerCache) (msg : String) (now : Nat)
    (h : s.is_refreshing = false) :
    (refresh_library_cache s (.error msg) now).1 = .error msg ∧
    (refresh_library_cache s (.error msg) now).2.is_refreshing = true ∧
    (refresh_library_cache s (.error msg) now).2.episode_parts = s.episode_parts ∧
    (refresh_library_cache s (.error msg) now).2.last_refresh = s.last_refresh ∧
    (refresh_library_cache s (.error msg) now).2.saves = s.saves ∧
    (refresh_library_cache s (.error msg) now).2.newly_added = s.newly_added ∧
    ∀ (scan2 : Except String (List ScanEpisode)) (now2 : Nat),
      refresh_library_cache (refresh_library_cache s (.error msg) now).2 scan2 now2 =
        (.ok ([], []), (refresh_library_cache s (.error msg) now).2) := by
  have h1 : refresh_library_cache s (.error msg) now =
      (.error msg, { s with is_refreshing := true }) := by
    simp [refresh_library_cache, h]
  refine ⟨by simp [h1], by simp [h1], by simp [h1], by simp [h1], by simp [h1], by simp [h1], ?_⟩
  intro scan2 now2
  rw [h1]
  simp [refresh_library_cache]

/-- C10 witness: a concrete failed refresh wedges the concrete cache. -/
theorem C10_refresh_not_exception_atomic_witness :
    (refresh_library_cache cacheC10 (.error "boom") 5).1 = .error "boom" ∧
    (refresh_library_cache cacheC10 (.error "boom") 5).2.is_refreshing = true ∧
    refresh_library_cache (refresh_library_cache cacheC10 (.error "boom") 5).2
        (.ok [⟨"E2", ["p2"]⟩]) 6 =
      (.ok ([], []), (refresh_library_cache cacheC10 (.error "boom") 5).2) := by
  have h := C10_refresh_not_exception_atomic cacheC10 "boom" 5 rfl
  exact ⟨h.1, h.2.1, h.2.2.2.2.2.2 (.ok [⟨"E2", ["p2"]⟩]) 6⟩

/-- Scan-loop characterization: with a fresh accumulator and distinct scan
keys, the added list is exactly the scanned episodes absent from the old
snapshot and the updated list exactly those present with a different part
set. -/
theorem refreshScan_spec (old : String → Option (List String)) :
    ∀ (scan : List ScanEpisode) (m : String → Option (List String)),
    (∀ e ∈ scan, m e.key = none) →
    (scan.map ScanEpisode.key).Nodup →
    (refreshScan old m scan).2.1 = scan.filter (fun e => (old e.key).isNone) ∧
    (refreshScan old m scan).2.2 = scan.filter (fun e =>
      match old e.key with
      | some l => !(sameSet l e.parts)
      | none => false) := by
  intro scan
  induction scan with
  | nil => intro m _ _; exact ⟨rfl, rfl⟩
  | cons ep rest ih =>
    intro m hm hnd
    have hmep : m ep.key = none := hm ep (by simp)
    rw [List.map_cons] at hnd
    have hnd1 := List.nodup_cons.mp hnd
    have hm2 : ∀ e ∈ rest, (if e.key = ep.key then some ep.parts else m e.key) = none := by
      intro e he
      have hne : e.key ≠ ep.key := by
        intro hcontr
        exact hnd1.1 (hcontr ▸ List.mem_map_of_mem ScanEpisode.key he)
      rw [if_neg hne]
      exact hm e (List.mem_cons_of_mem ep he)
    have ihr := ih (fun k => if k = ep.key then some ep.parts else m k)
      (fun e he => hm2 e he) hnd1.2
    simp only [refreshScan, hmep, Option.getD_none, List.nil_append]
    cases hold : old ep.key with
    | none =>
      simp only [hold] at ihr ⊢
      constructor
      · simp [List.filter_cons, hold, ihr.1]
      · simp [List.filter_cons, hold, ihr.2]
    | some oldParts =>
      simp only [hold] at ihr ⊢
      cases hss : sameSet oldParts ((m ep.key).getD [] ++ ep.parts) with
      | true =>
        have hss2 : sameSet oldParts ep.parts = true := by
          simpa [hmep] using hss
        constructor
        · simp [List.filter_cons, hold, hss, ihr.1, hss2]
        · simp [List.filter_cons, hold, hss, ihr.2, hss2]
      | false =>
        have hss2 : sameSet oldParts ep.parts = false := by
          simpa [hmep] using hss
        constructor
        · simp [List.filter_cons, hold, hss, ihr.1, hss2]
        · simp [List.filter_cons, hold, hss, ihr.2, hss2]

/-- C5: a refresh on an idle cache, scanning episodes with distinct keys,
reports as added exactly the episodes whose key is absent from the stored
snapshot, as updated exactly those present with a changed part set, and
reports unchanged episodes in neither list. -/
theorem C5_library_diff (s : PlexServerCache) (scan : List ScanEpisode) (now : Nat)
    (hflag : s.is_refreshing = false)
    (hnodup : (scan.map ScanEpisode.key).Nodup) :
    (refresh_library_cache s (.ok scan) now).1 =
      .ok (scan.filter (fun e => (s.episode_parts e.key).isNone),
           scan.filter (fun e =>
             match s.episode_parts e.key with
             | some l => !(sameSet l e.parts)
             | none => false)) := by
  have h := refreshScan_spec s.episode_parts scan (fun _ => none) (fun _ _ => rfl) hnodup
  simp [refresh_library_cache, hflag, h.1, h.2]

/-- C5 witness: snapshot `E1 -> [p1]`, scan returning `E1:[p1]` and
`E2:[p2]` gives `added = [E2]`, `updated = []`. -/
theorem C5_library_diff_witness :
    (refresh_library_cache cacheC5 (.ok scanC5) 7).1 = .ok ([⟨"E2", ["p2"]⟩], []) := by
  have h := C5_library_diff cacheC5 scanC5 7 rfl (by decide)
  rw [h]
  rfl

/-- Every iteration of the alert loop advances the iteration counter by
one, whatever the handler outcome: no outcome terminates the body. -/
theorem processStep_iterations (s : LoopState) (o : AlertOutcome) :
    (processStep s o).iterations = s.iterations + 1 := by
  obtain ⟨rc, ca, q, hd, it⟩ := s
  by_cases hr : rc = 0 <;>
    cases q <;> cases ca <;>
    simp [processStep, handleAlert, hr]

/-- C7: the alert-processing loop policy.  On a read timeout the retry
counter is incremented and the very same alert is the target of the next
iteration, whose handler invocation happens without touching the queue;
on a connection/protocol fault or any other exception the retry counter
is reset and the next target comes from the queue (the faulted alert is
dropped); and the loop body runs for every iteration until the stop flag
is observed, for every possible outcome sequence. -/
theorem C7_alert_loop_policy (s : LoopState) (a : Nat)
    (h : processingTarget s = some a) :
    ((processStep s AlertOutcome.readTimeout).retryCounter = s.retryCounter + 1 ∧
     (processStep s AlertOutcome.readTimeout).handled =
       s.handled ++ [(a, AlertOutcome.readTimeout)] ∧
     processingTarget (processStep s AlertOutcome.readTimeout) = some a ∧
     ∀ o2, (processStep (processStep s AlertOutcome.readTimeout) o2).queue =
             (processStep s AlertOutcome.readTimeout).queue ∧
           (processStep (processStep s AlertOutcome.readTimeout) o2).handled =
             (processStep s AlertOutcome.readTimeout).handled ++ [(a, o2)]) ∧
    (∀ o, o = AlertOutcome.connectionFault ∨ o = AlertOutcome.otherError →
       (processStep s o).retryCounter = 0 ∧
       (processStep s o).handled = s.handled ++ [(a, o)] ∧
       processingTarget (processStep s o) = (processStep s o).queue.head?) ∧
    (∀ (outs : Nat → AlertOutcome) (n : Nat),
       (runLoop outs n s).iterations = s.iterations + n) := by
  have hrun : ∀ (outs : Nat → AlertOutcome) (n : Nat) (st : LoopState),
      (runLoop outs n st).iterations = st.iterations + n := by
    intro outs n
    induction n with
    | zero => intro st; rfl
    | succ k ihk =>
      intro st
      show (runLoop outs k (processStep st (outs st.iterations))).iterations = _
      rw [ihk, processStep_iterations]
      omega
  unfold processingTarget at h
  by_cases hr : s.retryCounter = 0
  · rw [if_pos hr] at h
    cases hq : s.queue with
    | nil => rw [hq] at h; simp at h
    | cons q0 qrest =>
      rw [hq] at h
      have hq0 : q0 = a := by simpa using h
      subst hq0
      refine ⟨⟨?_, ?_, ?_, ?_⟩, ?_, fun outs n => hrun outs n s⟩
      · simp [processStep, handleAlert, hr, hq]
      · simp [processStep, handleAlert, hr, hq]
      · simp [processStep, handleAlert, processingTarget, hr, hq]
      · intro o2
        constructor
        · simp [processStep, handleAlert, hr, hq]
        · simp [processStep, handleAlert, hr, hq]
      · rintro o (rfl | rfl) <;>
          exact ⟨by simp [processStep, handleAlert, hr, hq],
                 by simp [processStep, handleAlert, hr, hq],
                 by simp [processStep, handleAlert, processingTarget, hr, hq]⟩
  · rw [if_neg hr] at h
    refine ⟨⟨?_, ?_, ?_, ?_⟩, ?_, fun outs n => hrun outs n s⟩
    · simp [processStep, handleAlert, hr, h]
    · simp [processStep, handleAlert, hr, h]
    · simp [processStep, handleAlert, processingTarget, hr, h]
    · intro o2
      constructor
      · simp [processStep, handleAlert, hr, h]
      · simp [processStep, handleAlert, hr, h]
    · rintro o (rfl | rfl) <;>
        exact ⟨by simp [processStep, handleAlert, hr, h],
               by simp [processStep, handleAlert, hr, h],
               by simp [processStep, handleAlert, processingTarget, hr, h]⟩

/-- C7 witness: the policy applied to a concrete state with two queued
alerts, plus a concrete five-iteration run. -/
theorem C7_alert_loop_policy_witness :
    processingTarget loopC7 = some 7 ∧
    (processStep loopC7 AlertOutcome.readTimeout).retryCounter = loopC7.retryCounter + 1 ∧
    processingTarget (processStep loopC7 AlertOutcome.readTimeout) = some 7 ∧
    (runLoop (fun _ => AlertOutcome.otherError) 5 loopC7).iterations = loopC7.iterations + 5 := by
  have h := C7_alert_loop_policy loopC7 7 rfl
  exact ⟨rfl, h.1.1, h.1.2.2.1, h.2.2 (fun _ => AlertOutcome.otherError) 5⟩

/-- List.getD returns the fallback or an element of the list. -/
theorem list_getD_mem_or {α : Type} : ∀ (l : List α) (n : Nat) (d : α),
    l.getD n d = d ∨ l.getD n d ∈ l
  | [], _, _ => Or.inl (by simp)
  | _ :: _, 0, _ => Or.inr (by simp)
  | a :: t, n + 1, d => by
    rcases list_getD_mem_or t n d with h | h
    · exact Or.inl (by simpa using h)
    · right
      simp only [List.getD_cons_succ]
      exact List.mem_cons_of_mem a h

/-- The candidate picked by the scoring tail is one of the candidates. -/
theorem pickBest_mem {α : Type} (f : α → Nat) :
    ∀ (l : List α) (s : α), TrackChanges.pickBest f l = some s → s ∈ l
  | [], s, h => by cases h
  | [a], s, h => by
    simp only [TrackChanges.pickBest, Option.some.injEq] at h
    simp [← h]
  | a :: b :: r, s, h => by
    simp only [TrackChanges.pickBest, Option.some.injEq] at h
    rcases list_getD_mem_or (a :: b :: r) (TrackChanges.idxOfMax ((a :: b :: r).map f)) a
      with h2 | h2
    · rw [← h, h2]; simp
    · rw [← h]; exact h2

/-- With no candidate in the reference audio's language, audio matching
returns nothing. -/
theorem match_audio_stream_lang_disjoint (ra : AudioStream) (streams : List AudioStream)
    (h : ∀ s ∈ streams, s.languageCode ≠ ra.languageCode) :
    TrackChanges.match_audio_stream (some ra) streams = none := by
  have hf : streams.filter (fun s => s.languageCode == ra.languageCode) = [] := by
    rw [List.filter_eq_nil_iff]
    intro s hs
    simpa using h s hs
  simp [TrackChanges.match_audio_stream, hf, TrackChanges.pickBest]

/-- With no candidate in the resolved subtitle-match language, the
subtitle filtering core returns nothing. -/
theorem match_subtitle_filtered_lang_disjoint (mf mh : Bool) (lc : Option String)
    (subs : List SubtitleStream) (refS : Option SubtitleStream)
    (h : ∀ s ∈ subs, s.languageCode ≠ lc) :
    TrackChanges.match_subtitle_filtered mf mh lc subs refS = none := by
  have hf : subs.filter (fun s => s.languageCode == lc) = [] := by
    rw [List.filter_eq_nil_iff]
    intro s hs
    simpa using h s hs
  cases mf <;> cases mh <;>
    simp [TrackChanges.match_subtitle_filtered, hf, TrackChanges.pickBest]

/-- With no candidate sharing the reference audio's or the reference
subtitle's language code, subtitle matching returns nothing. -/
theorem match_subtitle_stream_lang_disjoint (refA : Option AudioStream)
    (refS : Option SubtitleStream) (subs : List SubtitleStream)
    (hA : ∀ ra, refA = some ra → ∀ s ∈ subs, s.languageCode ≠ ra.languageCode)
    (hS : ∀ rs, refS = some rs → ∀ s ∈ subs, s.languageCode ≠ rs.languageCode) :
    TrackChanges.match_subtitle_stream refA refS subs = none := by
  cases refS with
  | some r => exact match_subtitle_filtered_lang_disjoint _ _ _ _ _ (hS r rfl)
  | none =>
    cases refA with
    | none => rfl
    | some a => exact match_subtitle_filtered_lang_disjoint _ _ _ _ _ (hA a rfl)

/-- When neither matcher finds a candidate, the changes computed for a
part reduce to a clear-subtitle entry exactly when a subtitle is
currently selected. -/
theorem computePart_no_match (refA : Option AudioStream) (refS : Option SubtitleStream)
    (ep : Episode) (part : MediaPart)
    (hA : TrackChanges.match_audio_stream refA part.audioStreams = none)
    (hS : TrackChanges.match_subtitle_stream refA refS part.subtitleStreams = none) :
    TrackChanges.computePart refA refS ep part =
      .ok (if (part.subtitleStreams.find? (fun s => s.selected)).isSome then
             [⟨ep.key, part.id, TrackSel.subtitle none⟩] else []) := by
  cases ha : part.audioStreams.find? (fun s => s.selected) <;>
    cases hcs : part.subtitleStreams.find? (fun s => s.selected) <;>
    simp [TrackChanges.computePart, TrackChanges.subtitle_changes_of_part,
          TrackChanges.audio_change_of_part, hA, hS, ha, hcs]

/-- C1 (amended): for a part none of whose audio or subtitle streams
shares the reference audio's or the reference subtitle's language code,
`compute` records no audio change and no subtitle-selection change for
that part; it records exactly one clear-subtitle entry when the part
currently has a subtitle selected, and nothing otherwise.  (The original
claim also excluded the clear-subtitle entry; the code does emit it, see
the counterexample.) -/
theorem C1_no_cross_language (refA : Option AudioStream) (refS : Option SubtitleStream)
    (ep : Episode) (part : MediaPart)
    (hA : ∀ ra, refA = some ra → ∀ s ∈ part.audioStreams, s.languageCode ≠ ra.languageCode)
    (hSA : ∀ ra, refA = some ra → ∀ s ∈ part.subtitleStreams, s.languageCode ≠ ra.languageCode)
    (hSS : ∀ rs, refS = some rs → ∀ s ∈ part.subtitleStreams, s.languageCode ≠ rs.languageCode) :
    TrackChanges.computePart refA refS ep part =
      .ok (if (part.subtitleStreams.find? (fun s => s.selected)).isSome then
             [⟨ep.key, part.id, TrackSel.subtitle none⟩] else []) := by
  have hA0 : TrackChanges.match_audio_stream refA part.audioStreams = none := by
    cases refA with
    | none => rfl
    | some ra => exact match_audio_stream_lang_disjoint ra _ (hA ra rfl)
  exact computePart_no_match refA refS ep part hA0
    (match_subtitle_stream_lang_disjoint refA refS _ hSA hSS)

/-- C1 counterexample: a part with only French streams against an
English reference selection, with a French subtitle currently selected.
No stream shares the reference languages, yet `compute` does add an
entry for the part: the clear-subtitle change, contradicting the claim
that the change list gains no entry at all. -/
theorem C1_counterexample :
    (partC1.audioStreams.all (fun s => !(s.languageCode == refAudioC1.languageCode))) = true ∧
    (partC1.subtitleStreams.all (fun s =>
      !(s.languageCode == refAudioC1.languageCode) &&
      !(s.languageCode == refSubC1.languageCode))) = true ∧
    TrackChanges.compute (some refAudioC1) (some refSubC1) [epC1] =
      .ok [⟨"e1", 1, TrackSel.subtitle none⟩] :=
  ⟨rfl, rfl, rfl⟩

/-- C1 witness: the amended statement evaluated on the concrete French
part. -/
theorem C1_no_cross_language_witness :
    TrackChanges.computePart (some refAudioC1) (some refSubC1) epC1 partC1 =
      .ok [⟨"e1", 1, TrackSel.subtitle none⟩] := by
  have h := C1_no_cross_language (some refAudioC1) (some refSubC1) epC1 partC1
    (by intro ra hra; cases hra; decide)
    (by intro ra hra; cases hra; decide)
    (by intro rs hrs; cases hrs; decide)
  exact h.trans rfl

/-- C2 (amended): with no reference subtitle and reference audio language
"en", subtitle matching only ever returns a forced "en" stream; and when
a part has no forced "en" candidate, `compute` emits no
subtitle-selection change for it — it emits exactly the clear-subtitle
entry when a subtitle is currently selected, and nothing otherwise.
(The original claim said no subtitle change at all is emitted; the code
does emit the clear entry, see the counterexample.) -/
theorem C2_forced_subtitle_inference :
    (∀ (a : AudioStream) (subs : List SubtitleStream) (s : SubtitleStream),
       a.languageCode = some "en" →
       TrackChanges.match_subtitle_stream (some a) none subs = some s →
       s.forced = true ∧ s.languageCode = some "en") ∧
    (∀ (a : AudioStream) (ep : Episode) (part : MediaPart),
       a.languageCode = some "en" →
       (∀ s ∈ part.subtitleStreams, (s.forced && s.languageCode == some "en") = false) →
       TrackChanges.subtitle_changes_of_part (some a) none ep part =
         .ok (if (part.subtitleStreams.find? (fun s => s.selected)).isSome then
                [⟨ep.key, part.id, TrackSel.subtitle none⟩] else [])) := by
  constructor
  · intro a subs s ha h
    have h2 : TrackChanges.match_subtitle_filtered true false a.languageCode subs none
        = some s := h
    unfold TrackChanges.match_subtitle_filtered at h2
    simp only [if_true, if_false] at h2
    have hmem := pickBest_mem _ _ _ h2
    have h3 := List.mem_filter.mp hmem
    have h4 := List.mem_filter.mp h3.1
    refine ⟨h3.2, ?_⟩
    have h5 : s.languageCode = a.languageCode := by
      have := h4.2
      simpa using this
    rw [h5, ha]
  · intro a ep part ha hno
    have hnone : TrackChanges.match_subtitle_stream (some a) none part.subtitleStreams
        = none := by
      show TrackChanges.match_subtitle_filtered true false a.languageCode
            part.subtitleStreams none = none
      have hf2 : (part.subtitleStreams.filter
          (fun s => s.languageCode == a.languageCode)).filter (fun s => s.forced) = [] := by
        rw [List.filter_eq_nil_iff]
        intro x hx hforced
        have h4 := List.mem_filter.mp hx
        have hlang : x.languageCode = some "en" := by
          have h6 := h4.2
          rw [ha] at h6
          simpa using h6
        have h7 := hno x h4.1
        rw [hforced, hlang] at h7
        simp at h7
      simp [TrackChanges.match_subtitle_filtered, hf2, TrackChanges.pickBest]
    cases hcs : part.subtitleStreams.find? (fun s => s.selected) <;>
      simp [TrackChanges.subtitle_changes_of_part, hnone, hcs]

/-- C2 counterexample: reference audio "en" with no reference subtitle;
the part's only subtitle candidate is English but not forced and is
currently selected.  No forced "en" candidate exists, yet `compute`
emits a subtitle change for the part: the clear-subtitle entry. -/
theorem C2_counterexample :
    (partC2.subtitleStreams.all (fun s => !(s.forced && s.languageCode == some "en"))) = true ∧
    refAudioC2.languageCode = some "en" ∧
    TrackChanges.compute (some refAudioC2) none [epC2] =
      .ok [⟨"e2", 2, TrackSel.subtitle none⟩] :=
  ⟨rfl, rfl, rfl⟩

/-- C2 witness: the amended statement evaluated on a concrete forced
English candidate list and on the concrete forced-less part. -/
theorem C2_forced_subtitle_inference_witness :
    subForcedC2.forced = true ∧ subForcedC2.languageCode = some "en" ∧
    TrackChanges.subtitle_changes_of_part (some refAudioC2) none epC2 partC2 =
      .ok [⟨"e2", 2, TrackSel.subtitle none⟩] := by
  have h1 := C2_forced_subtitle_inference.1 refAudioC2 subsForcedC2 subForcedC2 rfl rfl
  have h2 := C2_forced_subtitle_inference.2 refAudioC2 epC2 partC2 rfl (by decide)
  exact ⟨h1.1, h1.2, h2.trans rfl⟩

/-- C3 counterexample: under the code's scoring, candidate A (aac, stereo,
2 channels, "English") and candidate B (ac3, 5.1, 6 channels, "English")
both score 13 against the reference (aac, stereo, 2 channels, "English")
in the ambiguous-title case: A gets codec +5, layout +3, title +5 and no
ambiguity bonus (the reference does not have fewer channels), B gets
title +5 and the +8 ambiguity bonus.  The claimed strict inequality is
false — the +1 branch of the formula only runs when the reference has
three or more channels. -/
theorem C3_counterexample :
    ([candA3, candB3].all (fun s => s.title == candA3.title)) = true ∧
    TrackChanges.audioScore refAudioC3 true candA3 = 13 ∧
    TrackChanges.audioScore refAudioC3 true candB3 = 13 ∧
    ¬(TrackChanges.audioScore refAudioC3 true candB3 <
      TrackChanges.audioScore refAudioC3 true candA3) :=
  ⟨rfl, rfl, rfl, by decide⟩

/-- C3 (amended): A and B tie at 13 points, and A is returned because a
tie resolves to the first-encountered candidate
(`scores.index(max(scores))`). -/
theorem C3_scoring_tie_first_wins :
    TrackChanges.audioScore refAudioC3 true candA3 =
      TrackChanges.audioScore refAudioC3 true candB3 ∧
    TrackChanges.match_audio_stream (some refAudioC3) [candA3, candB3] = some candA3 :=
  ⟨rfl, rfl⟩

/-- C6: the code path on a failed user lookup.  Three users all resolve a
plex instance, the item and a reference episode; user 1 ("alice")
receives a non-empty change list, user 2's `get_user_by_id` returns
`None`.  The claim expects user 3 to be processed and one notification
to be emitted; the code instead executes `return` (not `continue`),
aborting the loop before user 3 and skipping the notification although
alice's changes are non-empty. -/
theorem C6_early_return_on_user_lookup :
    process_new_or_updated_episode [userC6a, userC6b, userC6c] =
      .ok ⟨[("alice", [⟨"it6", 2, TrackSel.audio audEnC6⟩])], false, false⟩ ∧
    ([("alice", [(⟨"it6", 2, TrackSel.audio audEnC6⟩ : TrackChange)])].any
      (fun p => !p.2.isEmpty)) = true :=
  ⟨rfl, rfl⟩

/-- C9: `compute` is not total.  The C9 part has no audio stream at all,
so its current audio selection is `None`, while the engine matches the
part's unselected English subtitle (which differs from the current
selection, also `None` there is none selected); the
commentary-suppression check then dereferences
`current_audio_stream.title`, so `compute` raises instead of returning a
change list. -/
theorem C9_compute_not_total :
    ((epC9.parts.headD ⟨0, [], []⟩).audioStreams.find? (fun s => s.selected)) = none ∧
    TrackChanges.match_subtitle_stream (TrackChanges.get_selected_streams refC9).1
      (TrackChanges.get_selected_streams refC9).2
      (epC9.parts.headD ⟨0, [], []⟩).subtitleStreams =
        some ⟨3, some "en", none, none, false, false, false⟩ ∧
    TrackChanges.computeForReference refC9 [epC9] = .error "AttributeError" :=
  ⟨rfl, rfl, rfl⟩
